import Mathlib

/-!
Verification of the kinglerORM sources (`src/lib.rs`, `src/sqlite.rs`) by
shallow embedding into Lean.

The Rust code serializes records with `serde_json` and then inspects the
resulting `serde_json::Value`.  We model `serde_json::Value` as `Json` below,
and `serde_json::Number` (an i64 or u64 or f64) as `JsonNum`, with the f64
payload modelled as an exact rational (no arithmetic is ever performed on
numeric payloads by the code under verification, only pattern matching and
decimal rendering).

Effectful SQLite calls (`rusqlite::Connection::open`, `Connection::execute`)
are modelled by explicit oracles: `openDb : Except DbError Unit` stands for
the result of `Sqlite::new`, and `exec : String → Except DbError Unit` for
`conn.execute` on a statement.  Functions return the list of SQL statement
texts they hand to `execute`, so that "executes exactly this statement" and
"executes no SQL" are provable facts.

`DbError` carries the spec's error taxonomy; the Rust code surfaces every one
of these failure sites as a `rusqlite::Error` value, and the spec names the
failure site, so each model error constructor labels the corresponding
return site of the code.
-/

/-- Spec-level error taxonomy (spec §7); each constructor labels a failure
return site of the Rust code. -/
inductive DbError where
  | Connection
  | Execution
  | UnsupportedBackend
  | UnsupportedRelation
deriving DecidableEq, Repr

/-- Model of `serde_json::Number`: an i64, a u64, or an f64.  The f64 payload
is modelled as an exact rational; the code never computes with it. -/
inductive JsonNum where
  | i64 : Int → JsonNum
  | u64 : Nat → JsonNum
  | f64 : Rat → JsonNum
deriving Repr

/-- Modelled from the spec: `serde_json::Value` after serializing a record.
The object case is an association list of fields; its list order models the
serialized map's iteration order, which spec §4.1 fixes as insertion order,
i.e. field declaration order (the crate manifest selecting the map flavour
is not among the sources). -/
inductive Json where
  | null : Json
  | bool : Bool → Json
  | num : JsonNum → Json
  | str : String → Json
  | arr : List Json → Json
  | obj : List (String × Json) → Json
deriving Repr

/-- `if let serde_json::Value::Null = value` — the null test used by
`Kingler::insert`. -/
def Json.isNull : Json → Bool
  | .null => true
  | _ => false

/-- The SQL type chosen for a field value by the `match field_value` arm of
`Kingler::generate_columns` (lib.rs lines 58-63). -/
def sql_type : Json → String
  | .str _ => "TEXT"
  | .num _ => "INTEGER"
  | .bool _ => "BOOLEAN"
  | _ => "TEXT"

/-- `Kingler::generate_columns` (lib.rs lines 45-70).  The argument is the
result of `serde_json::to_value`: `Except.error` models a failed
serialization.  If it is an object, an `id` key is emitted first as the
primary-key column and skipped in the generic pass; any non-object or failed
serialization yields the empty column list. -/
def generate_columns (v : Except Unit Json) : List (String × String) :=
  match v with
  | .ok (.obj map) =>
      (if map.any (fun p => p.1 == "id") then
        [("id", "INTEGER PRIMARY KEY AUTOINCREMENT")]
      else []) ++
      (map.filter (fun p => !(p.1 == "id"))).map (fun p => (p.1, sql_type p.2))
  | _ => []

/-- `Kingler::format_columns` (lib.rs lines 72-76). -/
def format_columns (columns : List (String × String)) : List String :=
  columns.map (fun p => p.1 ++ " " ++ p.2)

/-- One hexadecimal digit, lowercase, as written by serde's `\u00XX` escapes. -/
def hexDigit (n : Nat) : Char :=
  if n < 10 then Char.ofNat (48 + n) else Char.ofNat (87 + n)

/-- JSON string escaping as performed by `serde_json`'s `Display`. -/
def escapeChar (c : Char) : String :=
  if c = '"' then "\\\""
  else if c = '\\' then "\\\\"
  else if c = '\x08' then "\\b"
  else if c = '\x0c' then "\\f"
  else if c = '\n' then "\\n"
  else if c = '\r' then "\\r"
  else if c = '\t' then "\\t"
  else if c.toNat < 32 then
    "\\u00" ++ String.singleton (hexDigit (c.toNat / 16)) ++
      String.singleton (hexDigit (c.toNat % 16))
  else String.singleton c

def escapeString (s : String) : String :=
  String.join (s.toList.map escapeChar)

/-- Decimal expansion of the fractional part of a rational in `[0,1)`.
Fuel-bounded; 1200 digits exceed the longest decimal expansion of any f64
(1074 fractional digits), so the fuel never runs out on modelled values. -/
def renderFrac : Nat → Rat → String
  | 0, _ => ""
  | fuel + 1, q =>
    if q = 0 then ""
    else
      let q10 := q * 10
      let d : Int := ⌊q10⌋
      toString d.toNat ++ renderFrac fuel (q10 - (d : Rat))

/-- Decimal rendering of an f64 payload, modelling Rust's `f64::to_string`
(never scientific notation; integral values print with no fractional part). -/
def renderF64 (q : Rat) : String :=
  let sign := if q < 0 then "-" else ""
  let a := |q|
  let ip : Int := ⌊a⌋
  let fs := renderFrac 1200 (a - (ip : Rat))
  sign ++ toString ip.toNat ++ (if fs = "" then "" else "." ++ fs)

/-- The `serde_json::Value::Number` arm of `Kingler::insert` (lib.rs lines
171-179): `is_i64`/`is_u64`/`as_f64` followed by `to_string`. -/
def JsonNum.render : JsonNum → String
  | .i64 n => toString n
  | .u64 n => toString n
  | .f64 q => renderF64 q

mutual

/-- `serde_json::Value`'s `to_string` (compact `Display`), reached only by
the catch-all arm of `Kingler::insert`'s value match. -/
def Json.render : Json → String
  | .null => "null"
  | .bool b => if b then "true" else "false"
  | .num n => JsonNum.render n
  | .str s => "\"" ++ escapeString s ++ "\""
  | .arr xs => "[" ++ Json.renderArr xs ++ "]"
  | .obj m => "\x7b" ++ Json.renderObj m ++ "\x7d"

def Json.renderArr : List Json → String
  | [] => ""
  | [x] => Json.render x
  | x :: xs => Json.render x ++ "," ++ Json.renderArr xs

def Json.renderObj : List (String × Json) → String
  | [] => ""
  | [(k, v)] => "\"" ++ escapeString k ++ "\":" ++ Json.render v
  | (k, v) :: m => "\"" ++ escapeString k ++ "\":" ++ Json.render v ++ "," ++ Json.renderObj m

end

/-- The value-to-string conversion of `Kingler::insert` (lib.rs lines
170-184): numbers via `to_string`, strings wrapped in single quotes by
`format!("'\x7b\x7d'", s)`, booleans via `to_string`, null as the literal
text `NULL`, anything else via the `Value`'s `to_string`. -/
def renderValue : Json → String
  | .num n => JsonNum.render n
  | .str s => "'" ++ s ++ "'"
  | .bool b => if b then "true" else "false"
  | .null => "NULL"
  | v => v.render

/-- The column/value accumulation loop of `Kingler::insert` (lib.rs lines
160-184): walks the serialized map in iteration order, skips an `id` entry
whose value is null, and otherwise pushes the key and the rendered value. -/
def insertColumnsValues : List (String × Json) → List String × List String
  | [] => ([], [])
  | (key, value) :: rest =>
    if key == "id" && value.isNull then insertColumnsValues rest
    else
      let r := insertColumnsValues rest
      (key :: r.1, renderValue value :: r.2)

/-- Rust's `str::to_uppercase` as used on relation kinds (ASCII range; the
recognized tags and the lowercase letters they normalize from are all
ASCII). -/
def to_uppercase (s : String) : String :=
  String.mk (s.data.map fun c =>
    if 97 ≤ c.toNat ∧ c.toNat ≤ 122 then Char.ofNat (c.toNat - 32) else c)

/-- Rust's `str::to_lowercase` as used on table names (ASCII range). -/
def to_lowercase (s : String) : String :=
  String.mk (s.data.map fun c =>
    if 65 ≤ c.toNat ∧ c.toNat ≤ 90 then Char.ofNat (c.toNat + 32) else c)

/-- A statement as handed to rusqlite: the SQL text plus the list of bound
parameters (all of them `String`s in this code base). -/
structure Executed where
  query : String
  params : List String
deriving Repr, DecidableEq

/-- `Sqlite::insert` (sqlite.rs lines 80-95): builds
`INSERT INTO <table> (<cols>) VALUES (?, ...)` with one `?` per column and
binds every value as a parameter. -/
def Sqlite.insert (table_name : String) (columns : List String) (values : List String) : Executed :=
  let placeholders := String.intercalate ", " (List.replicate columns.length "?")
  let columns_str := String.intercalate ", " columns
  { query := "INSERT INTO " ++ table_name ++ " (" ++ columns_str ++ ") VALUES (" ++ placeholders ++ ")"
    params := values }

/-- `Sqlite::create_table` (sqlite.rs lines 55-60): builds and executes
`CREATE TABLE IF NOT EXISTS <table> (<cols>)`.  Returns the statements
handed to `execute` together with the call's result. -/
def Sqlite.create_table (exec : String → Except DbError Unit) (table_name : String) (columns : List String) : List String × Except DbError Unit :=
  let query := "CREATE TABLE IF NOT EXISTS " ++ table_name ++ " (" ++
    String.intercalate ", " columns ++ ")"
  ([query], exec query)

/-- `Kingler::create_table`, `"sqlite"` branch (lib.rs lines 111-127):
`if let Ok(sqlite) = Sqlite::new(..) { return sqlite.create_table(..) } Ok(())`.
`openDb` is the result of `Sqlite::new`; when it fails the branch falls
through to `Ok(())` without executing anything. -/
def Kingler.create_table (openDb : Except DbError Unit) (exec : String → Except DbError Unit) (table_name : String) (value : Except Unit Json) : List String × Except DbError Unit :=
  let columns := format_columns (generate_columns value)
  match openDb with
  | .ok _ => Sqlite.create_table exec table_name columns
  | .error _ => ([], .ok ())

/-- `Kingler::insert`, `"sqlite"` branch (lib.rs lines 155-189): serializes
the record, builds column and value lists, and hands them to
`Sqlite::insert`; a failed serialization, a non-object value, or a failed
connection all fall through to `Err(rusqlite::Error::ExecuteReturnedResults)`
(labelled `DbError.Execution`). -/
def Kingler.insert (openDb : Except DbError Unit) (table_name : String) (record : Except Unit Json) : Except DbError Executed :=
  match record with
  | .ok (.obj map) =>
    let cv := insertColumnsValues map
    match openDb with
    | .ok _ => .ok (Sqlite.insert table_name cv.1 cv.2)
    | .error _ => .error DbError.Execution
  | _ => .error DbError.Execution

/-- `Sqlite::create_relationship` (sqlite.rs lines 163-213): dispatches on
the uppercased relation kind; each recognized kind executes exactly one
statement, anything else returns the unsupported-relation error
(`rusqlite::Error::ExecuteReturnedResults` at the source level, the site the
spec names `DbError::UnsupportedRelation`) without executing any SQL. -/
def Sqlite.create_relationship (exec : String → Except DbError Unit) (table_name1 table_name2 column1 column2 relation_type : String) : List String × Except DbError Unit :=
  let k := to_uppercase relation_type
  if k = "MANY_TO_MANY" then
    let junction_table := to_lowercase table_name1 ++ "_" ++ to_lowercase table_name2
    let query := "CREATE TABLE IF NOT EXISTS " ++ junction_table ++ " (" ++
      to_lowercase table_name1 ++ "_ref INTEGER REFERENCES " ++ table_name1 ++ "(" ++ column1 ++ "), " ++
      to_lowercase table_name2 ++ "_ref INTEGER REFERENCES " ++ table_name2 ++ "(" ++ column2 ++ "))"
    ([query], exec query)
  else if k = "ONE_TO_MANY" then
    let query := "ALTER TABLE " ++ table_name2 ++ " ADD COLUMN " ++
      to_lowercase table_name1 ++ "_ref INTEGER REFERENCES " ++ table_name1 ++ "(" ++ column1 ++ ")"
    ([query], exec query)
  else if k = "ONE_TO_ONE" then
    let query := "ALTER TABLE " ++ table_name1 ++ " ADD COLUMN " ++
      to_lowercase table_name2 ++ "_ref INTEGER UNIQUE REFERENCES " ++ table_name2 ++ "(" ++ column2 ++ ")"
    ([query], exec query)
  else ([], .error DbError.UnsupportedRelation)

/-! ## Helper lemmas -/

/-- The generic mapping pass of `generate_columns` never emits a column
named `id` (the loop skips `id` entries). -/
lemma no_id_in_generic_pass (m : List (String × Json)) :
    ((m.filter (fun p => !(p.1 == "id"))).map
      (fun p => (p.1, sql_type p.2))).filter (fun p => p.1 == "id") = [] := by
  induction m with
  | nil => rfl
  | cons x xs ih =>
    by_cases hx : x.1 = "id" <;>
      simp [List.filter_cons, hx, ih]

/-- Every non-`id` field of a serialized object appears in the generic pass
of `generate_columns` with its `sql_type`. -/
lemma mem_generate_columns_of_mem (m : List (String × Json)) (k : String) (v : Json)
    (hmem : (k, v) ∈ m) (hk : k ≠ "id") :
    (k, sql_type v) ∈ generate_columns (Except.ok (Json.obj m)) := by
  unfold generate_columns
  refine List.mem_append.mpr (Or.inr ?_)
  exact List.mem_map.mpr ⟨(k, v), List.mem_filter.mpr ⟨hmem, by simp [hk]⟩, rfl⟩

/-! ## Claims -/

/-- C1, counterexample: a field whose serialized value is the non-integer
number 1.5 is mapped to `INTEGER`, not to `REAL` as the claim states. -/
theorem C1_counterexample :
    generate_columns (Except.ok (Json.obj [("price", Json.num (JsonNum.f64 (3 / 2)))])) =
      [("price", "INTEGER")] ∧
    generate_columns (Except.ok (Json.obj [("price", Json.num (JsonNum.f64 (3 / 2)))])) ≠
      [("price", "REAL")] := by
  constructor <;> decide

/-- C1 (amended): `generate_columns` maps every number field to `INTEGER`
(whether or not the number is an integer — there is no `REAL` case); string
fields map to `TEXT`, boolean fields to `BOOLEAN`, and any other value kind
to `TEXT`; each non-`id` field appears in the result with exactly that
type. -/
theorem C1_type_mapping :
    (∀ n : JsonNum, sql_type (Json.num n) = "INTEGER") ∧
    (∀ s : String, sql_type (Json.str s) = "TEXT") ∧
    (∀ b : Bool, sql_type (Json.bool b) = "BOOLEAN") ∧
    (∀ v : Json, (∀ n, v ≠ Json.num n) → (∀ s, v ≠ Json.str s) →
      (∀ b, v ≠ Json.bool b) → sql_type v = "TEXT") ∧
    (∀ (m : List (String × Json)) (k : String) (v : Json),
      (k, v) ∈ m → k ≠ "id" →
        (k, sql_type v) ∈ generate_columns (Except.ok (Json.obj m))) := by
  refine ⟨fun n => rfl, fun s => rfl, fun b => rfl, ?_, mem_generate_columns_of_mem⟩
  intro v hn hs hb
  cases v with
  | num n => exact absurd rfl (hn n)
  | str s => exact absurd rfl (hs s)
  | bool b => exact absurd rfl (hb b)
  | null => rfl
  | arr xs => rfl
  | obj m => rfl

/-- Witness for C1: the amended mapping evaluated on a concrete record. -/
theorem C1_witness :
    ("price", sql_type (Json.num (JsonNum.f64 (3 / 2)))) ∈
      generate_columns (Except.ok (Json.obj
        [("name", Json.str "x"), ("price", Json.num (JsonNum.f64 (3 / 2)))])) :=
  C1_type_mapping.2.2.2.2 _ "price" (Json.num (JsonNum.f64 (3 / 2)))
    (List.mem_cons_of_mem _ (List.mem_cons_self _ _)) (by decide)

/-- C5: for a record serialized with fields (a: string, b: integer,
c: boolean) in declaration order, `generate_columns` yields exactly
[(a,TEXT),(b,INTEGER),(c,BOOLEAN)] in that order, with a leading
(id, INTEGER PRIMARY KEY AUTOINCREMENT) prepended when an `id` field is
present. -/
theorem C5_field_order (a b c : String) (sa : String) (nb : Int) (vc : Bool)
    (idv : Json) (ha : a ≠ "id") (hb : b ≠ "id") (hc : c ≠ "id") :
    generate_columns (Except.ok (Json.obj
        [(a, Json.str sa), (b, Json.num (JsonNum.i64 nb)), (c, Json.bool vc)])) =
      [(a, "TEXT"), (b, "INTEGER"), (c, "BOOLEAN")] ∧
    generate_columns (Except.ok (Json.obj
        [("id", idv), (a, Json.str sa), (b, Json.num (JsonNum.i64 nb)), (c, Json.bool vc)])) =
      ("id", "INTEGER PRIMARY KEY AUTOINCREMENT") ::
        [(a, "TEXT"), (b, "INTEGER"), (c, "BOOLEAN")] := by
  constructor <;> simp [generate_columns, sql_type, ha, hb, hc]

/-- Witness for C5: the field-order result evaluated on a concrete record. -/
theorem C5_witness :
    generate_columns (Except.ok (Json.obj
        [("name", Json.str "John"), ("age", Json.num (JsonNum.i64 25)), ("active", Json.bool true)])) =
      [("name", "TEXT"), ("age", "INTEGER"), ("active", "BOOLEAN")] ∧
    generate_columns (Except.ok (Json.obj
        [("id", Json.null), ("name", Json.str "John"), ("age", Json.num (JsonNum.i64 25)), ("active", Json.bool true)])) =
      ("id", "INTEGER PRIMARY KEY AUTOINCREMENT") ::
        [("name", "TEXT"), ("age", "INTEGER"), ("active", "BOOLEAN")] :=
  C5_field_order "name" "age" "active" "John" 25 true Json.null
    (by decide) (by decide) (by decide)

/-- C6: whenever the serialized record has a field named `id`,
`generate_columns` emits ("id", "INTEGER PRIMARY KEY AUTOINCREMENT") as the
first column, and `id` appears exactly once in the result (the generic pass
skips it). -/
theorem C6_id_first_and_once (m : List (String × Json))
    (h : ∃ v, ("id", v) ∈ m) :
    (generate_columns (Except.ok (Json.obj m))).head? =
      some ("id", "INTEGER PRIMARY KEY AUTOINCREMENT") ∧
    ((generate_columns (Except.ok (Json.obj m))).filter
      (fun p => p.1 == "id")).length = 1 := by
  obtain ⟨v, hv⟩ := h
  have hany : m.any (fun p => p.1 == "id") = true :=
    List.any_eq_true.mpr ⟨("id", v), hv, by simp⟩
  simp [generate_columns, hany, List.filter_append, no_id_in_generic_pass m]

/-- Witness for C6: evaluated on a concrete record containing `id`. -/
theorem C6_witness :
    (generate_columns (Except.ok (Json.obj [("id", Json.null), ("name", Json.str "x")]))).head? =
      some ("id", "INTEGER PRIMARY KEY AUTOINCREMENT") ∧
    ((generate_columns (Except.ok (Json.obj [("id", Json.null), ("name", Json.str "x")]))).filter
      (fun p => p.1 == "id")).length = 1 :=
  C6_id_first_and_once [("id", Json.null), ("name", Json.str "x")]
    ⟨Json.null, List.mem_cons_self _ _⟩

/-- C9: when serialization fails or produces anything other than a key-value
object, `generate_columns` returns the empty column list; its return type
has no error channel, so the failure is silently swallowed. -/
theorem C9_silent_empty_columns (v : Except Unit Json)
    (h : ∀ m, v ≠ Except.ok (Json.obj m)) :
    generate_columns v = [] := by
  cases v with
  | error e => rfl
  | ok j =>
    cases j with
    | obj m => exact absurd rfl (h m)
    | null => rfl
    | bool b => rfl
    | num n => rfl
    | str s => rfl
    | arr xs => rfl

/-- Witness for C9: a serialized value that is a bare string yields the
empty column list. -/
theorem C9_witness :
    generate_columns (Except.ok (Json.str "oops")) = [] :=
  C9_silent_empty_columns (Except.ok (Json.str "oops"))
    (by intro m h; injection h with h2; exact Json.noConfusion h2)

/-- C2: `Sqlite::insert` builds `INSERT INTO <table> (<cols>) VALUES (?, ...)`
with one `?` placeholder per column, passes the values only as bound
parameters (the parameter list is exactly the given value list, unaltered),
and the statement text does not depend on the values at all — so a value
containing a single quote leaves the statement unchanged. -/
theorem C2_parameter_binding (table : String) (columns values : List String)
    (_hlen : values.length = columns.length) :
    (Sqlite.insert table columns values).query =
      "INSERT INTO " ++ table ++ " (" ++ String.intercalate ", " columns ++
        ") VALUES (" ++ String.intercalate ", " (List.replicate columns.length "?") ++ ")" ∧
    (List.replicate columns.length "?").length = columns.length ∧
    (Sqlite.insert table columns values).params = values ∧
    (∀ values', (Sqlite.insert table columns values').query =
      (Sqlite.insert table columns values).query) :=
  ⟨rfl, List.length_replicate _ _, rfl, fun _ => rfl⟩

/-- Witness for C2: the `O'Brien` case — the quote character stays out of the
statement text and the value is bound verbatim. -/
theorem C2_witness :
    (Sqlite.insert "users" ["name"] ["O'Brien"]).query =
      "INSERT INTO users (name) VALUES (?)" ∧
    (Sqlite.insert "users" ["name"] ["O'Brien"]).params = ["O'Brien"] := by
  have h := C2_parameter_binding "users" ["name"] ["O'Brien"] (by decide)
  exact ⟨by rw [h.1]; rfl, h.2.2.1⟩

/-- The column/value loop of `Kingler::insert` keeps exactly the fields that
are not a null `id`, in map order, pairing each kept key with its rendered
value. -/
lemma insertColumnsValues_eq (m : List (String × Json)) :
    insertColumnsValues m =
      ((m.filter fun p => !(p.1 == "id" && p.2.isNull)).map Prod.fst,
       (m.filter fun p => !(p.1 == "id" && p.2.isNull)).map fun p => renderValue p.2) := by
  induction m with
  | nil => rfl
  | cons x xs ih =>
    obtain ⟨k, v⟩ := x
    by_cases hk : k = "id"
    · subst hk
      cases hv : v.isNull with
      | true => simp [insertColumnsValues, List.filter_cons, hv, ih]
      | false => simp [insertColumnsValues, List.filter_cons, hv, ih]
    · simp [insertColumnsValues, List.filter_cons, hk, ih]

/-- C7: when the serialized `id` field is null, `insert` omits `id` from both
the column list and the value list; when `id` is present and non-null it is
included like any other field (its key in the columns, its rendered value in
the values). -/
theorem C7_id_null_skipped (m : List (String × Json)) :
    ((∀ v, ("id", v) ∈ m → v.isNull = true) →
      "id" ∉ (insertColumnsValues m).1) ∧
    (∀ v, ("id", v) ∈ m → v.isNull = false →
      "id" ∈ (insertColumnsValues m).1 ∧
        renderValue v ∈ (insertColumnsValues m).2) := by
  constructor
  · intro hall hmem
    rw [insertColumnsValues_eq] at hmem
    obtain ⟨p, hp, hfst⟩ := List.mem_map.mp hmem
    obtain ⟨hpm, hpred⟩ := List.mem_filter.mp hp
    obtain ⟨k, v⟩ := p
    simp only at hfst
    subst hfst
    have hnull := hall v hpm
    simp [hnull] at hpred
  · intro v hv hnull
    constructor
    · rw [insertColumnsValues_eq]
      exact List.mem_map.mpr ⟨("id", v), List.mem_filter.mpr ⟨hv, by simp [hnull]⟩, rfl⟩
    · rw [insertColumnsValues_eq]
      exact List.mem_map.mpr ⟨("id", v), List.mem_filter.mpr ⟨hv, by simp [hnull]⟩, rfl⟩

/-- Witness for C7: a null `id` is dropped; a numeric `id` is kept. -/
theorem C7_witness :
    "id" ∉ (insertColumnsValues [("id", Json.null), ("name", Json.str "x")]).1 ∧
    "id" ∈ (insertColumnsValues [("id", Json.num (JsonNum.u64 7))]).1 := by
  constructor
  · exact (C7_id_null_skipped _).1 (by
      intro v hv
      simp at hv
      subst hv
      rfl)
  · exact ((C7_id_null_skipped _).2 (Json.num (JsonNum.u64 7))
      (List.mem_cons_self _ _) rfl).1

/-- C10: `Kingler::insert` hands `Sqlite::insert` the rendered value list as
the bound parameters — every value is bound as a string: a string value is
wrapped in an extra pair of single quotes, booleans render as `true`/`false`,
i64/u64 numbers as their decimal form, and a null of any non-`id` field is
bound as the text `NULL`. -/
theorem C10_values_bound_as_strings (table : String) (m : List (String × Json)) :
    Kingler.insert (Except.ok ()) table (Except.ok (Json.obj m)) =
      Except.ok (Sqlite.insert table (insertColumnsValues m).1 (insertColumnsValues m).2) ∧
    (Sqlite.insert table (insertColumnsValues m).1 (insertColumnsValues m).2).params =
      (insertColumnsValues m).2 ∧
    (∀ s : String, renderValue (Json.str s) = "'" ++ s ++ "'") ∧
    (renderValue (Json.bool true) = "true" ∧ renderValue (Json.bool false) = "false") ∧
    (∀ n : Int, renderValue (Json.num (JsonNum.i64 n)) = toString n) ∧
    (∀ n : Nat, renderValue (Json.num (JsonNum.u64 n)) = toString n) ∧
    renderValue Json.null = "NULL" ∧
    (∀ k v, (k, v) ∈ m → k ≠ "id" →
      renderValue v ∈ (insertColumnsValues m).2) := by
  refine ⟨rfl, rfl, fun s => rfl, ⟨rfl, rfl⟩, fun n => rfl, fun n => rfl, rfl, ?_⟩
  intro k v hkv hk
  rw [insertColumnsValues_eq]
  exact List.mem_map.mpr ⟨(k, v), List.mem_filter.mpr ⟨hkv, by simp [hk]⟩, rfl⟩

/-- Witness for C10: a non-`id` null field is bound as the text `NULL`, and a
quoted string is wrapped. -/
theorem C10_witness :
    renderValue Json.null ∈ (insertColumnsValues [("nickname", Json.null)]).2 ∧
    renderValue (Json.str "O'Brien") = "'O'Brien'" := by
  have h := C10_values_bound_as_strings "users" [("nickname", Json.null)]
  exact ⟨h.2.2.2.2.2.2.2 "nickname" Json.null (List.mem_cons_self _ _) (by decide),
    (h.2.2.1 "O'Brien").trans rfl⟩

/-- C3, counterexample: when opening the database file fails,
`Kingler::create_table`'s `if let Ok` falls through and the call returns
success `Ok(())`, not `DbError::Connection`. -/
theorem C3_counterexample :
    (Kingler.create_table (Except.error DbError.Connection) (fun _ => Except.ok ())
        "Client" (Except.ok (Json.obj [("name", Json.str "")]))).2 = Except.ok () ∧
    (Kingler.create_table (Except.error DbError.Connection) (fun _ => Except.ok ())
        "Client" (Except.ok (Json.obj [("name", Json.str "")]))).2 ≠
      Except.error DbError.Connection :=
  ⟨rfl, fun h => Except.noConfusion h⟩

/-- C3 (amended): when the database file cannot be opened,
`Kingler::create_table` swallows the failure and returns success `Ok(())`
without executing any SQL; when the connection opens and the engine rejects
the `CREATE TABLE` statement, that execution error is propagated to the
caller. -/
theorem C3_connection_swallowed (openErr : DbError)
    (exec : String → Except DbError Unit) (table : String) (v : Except Unit Json) :
    Kingler.create_table (Except.error openErr) exec table v = ([], Except.ok ()) ∧
    (exec ("CREATE TABLE IF NOT EXISTS " ++ table ++ " (" ++
        String.intercalate ", " (format_columns (generate_columns v)) ++ ")") =
        Except.error DbError.Execution →
      (Kingler.create_table (Except.ok ()) exec table v).2 =
        Except.error DbError.Execution) :=
  ⟨rfl, fun h => h⟩

/-- Witness for C3 (amended), at a concrete record and a concrete engine that
rejects every statement. -/
theorem C3_witness :
    Kingler.create_table (Except.error DbError.Connection)
        (fun _ => Except.error DbError.Execution) "Client"
        (Except.ok (Json.obj [("name", Json.str "")])) = ([], Except.ok ()) ∧
    (Kingler.create_table (Except.ok ())
        (fun _ => Except.error DbError.Execution) "Client"
        (Except.ok (Json.obj [("name", Json.str "")]))).2 =
      Except.error DbError.Execution := by
  have h := C3_connection_swallowed DbError.Connection
    (fun _ => Except.error DbError.Execution) "Client"
    (Except.ok (Json.obj [("name", Json.str "")]))
  exact ⟨h.1, h.2 rfl⟩

/-- C4: a relation kind whose uppercase normalization is none of
MANY_TO_MANY, ONE_TO_MANY, ONE_TO_ONE makes `create_relationship` return
the unsupported-relation error with no SQL executed; the dispatch depends on
the kind only through its uppercase normalization, so in particular each of
the three recognized tags dispatches identically in lowercase and in
uppercase. -/
theorem C4_unsupported_relation (exec : String → Except DbError Unit)
    (t1 t2 c1 c2 : String) :
    (∀ kind, to_uppercase kind ∉ (["MANY_TO_MANY", "ONE_TO_MANY", "ONE_TO_ONE"] : List String) →
      Sqlite.create_relationship exec t1 t2 c1 c2 kind =
        ([], Except.error DbError.UnsupportedRelation)) ∧
    (∀ kind kind', to_uppercase kind = to_uppercase kind' →
      Sqlite.create_relationship exec t1 t2 c1 c2 kind =
        Sqlite.create_relationship exec t1 t2 c1 c2 kind') ∧
    Sqlite.create_relationship exec t1 t2 c1 c2 "many_to_many" =
      Sqlite.create_relationship exec t1 t2 c1 c2 "MANY_TO_MANY" ∧
    Sqlite.create_relationship exec t1 t2 c1 c2 "one_to_many" =
      Sqlite.create_relationship exec t1 t2 c1 c2 "ONE_TO_MANY" ∧
    Sqlite.create_relationship exec t1 t2 c1 c2 "one_to_one" =
      Sqlite.create_relationship exec t1 t2 c1 c2 "ONE_TO_ONE" := by
  have hdisp : ∀ kind kind', to_uppercase kind = to_uppercase kind' →
      Sqlite.create_relationship exec t1 t2 c1 c2 kind =
        Sqlite.create_relationship exec t1 t2 c1 c2 kind' := by
    intro kind kind' he
    unfold Sqlite.create_relationship
    rw [he]
  refine ⟨?_, hdisp, hdisp _ _ (by decide), hdisp _ _ (by decide), hdisp _ _ (by decide)⟩
  intro kind h
  simp only [List.mem_cons, List.mem_singleton, not_or] at h
  obtain ⟨h1, h2, h3⟩ := h
  simp [Sqlite.create_relationship, h1, h2, h3]

/-- Witness for C4: the kind `bogus` (uppercased: `BOGUS`) is rejected with
no SQL executed, while the lowercase tag `many_to_many` dispatches exactly
like `MANY_TO_MANY`. -/
theorem C4_witness :
    to_uppercase "bogus" ∉ (["MANY_TO_MANY", "ONE_TO_MANY", "ONE_TO_ONE"] : List String) ∧
    Sqlite.create_relationship (fun _ => Except.ok ()) "Users" "Roles" "id" "id" "bogus" =
      ([], Except.error DbError.UnsupportedRelation) ∧
    Sqlite.create_relationship (fun _ => Except.ok ()) "Users" "Roles" "id" "id" "many_to_many" =
      Sqlite.create_relationship (fun _ => Except.ok ()) "Users" "Roles" "id" "id" "MANY_TO_MANY" := by
  have h := C4_unsupported_relation (fun _ => Except.ok ()) "Users" "Roles" "id" "id"
  exact ⟨by decide, h.1 "bogus" (by decide), h.2.2.1⟩

/-- C8: `create_relationship` with kind MANY_TO_MANY executes exactly the
junction-table statement, with the junction table and the two `_ref` column
prefixes lowercased and the `REFERENCES` targets using the original table
names. -/
theorem C8_many_to_many_statement (exec : String → Except DbError Unit)
    (tA tB kA kB : String) :
    Sqlite.create_relationship exec tA tB kA kB "MANY_TO_MANY" =
      (["CREATE TABLE IF NOT EXISTS " ++ (to_lowercase tA ++ "_" ++ to_lowercase tB) ++ " (" ++
          to_lowercase tA ++ "_ref INTEGER REFERENCES " ++ tA ++ "(" ++ kA ++ "), " ++
          to_lowercase tB ++ "_ref INTEGER REFERENCES " ++ tB ++ "(" ++ kB ++ "))"],
        exec ("CREATE TABLE IF NOT EXISTS " ++ (to_lowercase tA ++ "_" ++ to_lowercase tB) ++ " (" ++
          to_lowercase tA ++ "_ref INTEGER REFERENCES " ++ tA ++ "(" ++ kA ++ "), " ++
          to_lowercase tB ++ "_ref INTEGER REFERENCES " ++ tB ++ "(" ++ kB ++ "))")) := by
  have hup : to_uppercase "MANY_TO_MANY" = "MANY_TO_MANY" := by decide
  unfold Sqlite.create_relationship
  rw [hup, if_pos rfl]
